import Mathlib

/-!
Shallow embedding of the data-sanitization and benchmark-aggregation logic of
the Cloud-NoSQL-Performance-Analysis repository (three Python scripts:
`mongo_benchmark.py`, `dynamo_benchmark.py`, `cassandra_benchmark.py`).

Modelling conventions:
* Python scalar values that can appear in a raw tabular row (produced by
  `pandas.read_csv(...).to_dict(orient='records')`) are the inductive `PyVal`.
* A finite Python float is modelled by the exact rational value of its shortest
  decimal representation (`repr`/`str` of the float); this is the value that
  `Decimal(str(x))` parses, and the value `float(x)` preserves.  NaN and the two
  infinities are separate constructors, since `pd.isna` / `np.isinf` /
  `np.isnan` branch on them.  `Decimal` values are exact rationals.
* Records are association lists `List (String × PyVal)`; Python `dict`
  iteration order is insertion order, so a `for key, value in record.items()`
  loop that writes `new_record[key] = ...` for every key is a `List.map` over
  the pairs.
* Wall-clock durations measured around store calls are opaque inputs: the
  harness logic is embedded as functions of those durations (rationals, in
  milliseconds).
-/

namespace CloudNoSQL

/-- Model of a Python float as seen through `str`, `pd.isna`, `np.isinf`,
`np.isnan`: a finite float carries the exact rational value of its shortest
decimal representation; NaN and ±Infinity are explicit. -/
inductive PyFloat where
  | finite (val : ℚ)
  | nan
  | inf (neg : Bool)
deriving DecidableEq, Repr

/-- Python scalar values occurring in one raw or cleaned tabular row.
`vDec` is `decimal.Decimal` (exact); `vTimestamp` is a `pandas.Timestamp`
(carrying the string it was parsed from; its internals are irrelevant here);
`vNaT` is pandas' not-a-time missing marker. -/
inductive PyVal where
  | vNone
  | vInt (n : ℤ)
  | vFloat (f : PyFloat)
  | vStr (s : String)
  | vBool (b : Bool)
  | vDec (d : ℚ)
  | vTimestamp (s : String)
  | vNaT
deriving DecidableEq, Repr

/-- Rendering of a float by Python `str`. For a finite float the exact decimal
digit string is abstracted by the rational's `toString` (no claim evaluates
`str` on a float; what matters is that the finite case determines `val`
exactly and is what `Decimal(str(x))` re-parses). -/
def floatStr : PyFloat → String
  | .finite q => toString q
  | .nan => "nan"
  | .inf false => "inf"
  | .inf true => "-inf"

/-- Python `str(value)` on the scalar values of this data set. -/
def pyStr : PyVal → String
  | .vNone => "None"
  | .vInt n => toString n
  | .vFloat f => floatStr f
  | .vStr s => s
  | .vBool b => if b then "True" else "False"
  | .vDec d => toString d
  | .vTimestamp s => s
  | .vNaT => "NaT"

/-- `pd.isna(value)`: true exactly on `None`, float NaN, and `NaT`. -/
def pdIsna : PyVal → Bool
  | .vNone => true
  | .vFloat .nan => true
  | .vNaT => true
  | _ => false

/-- `isinstance(value, float) and np.isinf(value)` (dynamo script, line 49). -/
def isInfFloat : PyVal → Bool
  | .vFloat (.inf _) => true
  | _ => false

/-- `isinstance(value, float) and (np.isinf(value) or np.isnan(value))`
(cassandra script, line 38). -/
def isInfOrNanFloat : PyVal → Bool
  | .vFloat (.inf _) => true
  | .vFloat .nan => true
  | _ => false

/-- A raw or cleaned tabular row: ordered mapping column name to scalar. -/
abbrev RawRecord : Type := List (String × PyVal)

/-- `numeric_cols` of `dynamo_benchmark.clean_record` (line 31). -/
def numericCols : List String :=
  ["Aging", "Sales", "Quantity", "Discount", "Profit", "Shipping_Cost"]

/-- Per-field body of `dynamo_benchmark.clean_record` (lines 33-63):
1. `Customer_Id` is forced to string;
2. `pd.isna(value) or value is None` gives `Decimal('0')` for columns in
   `numeric_cols` and the string `"N/A"` otherwise;
3. an infinite float gives `Decimal('0')`;
4. `int`/`np.integer` stays an integer; a (now necessarily finite)
   `float`/`np.floating` becomes `Decimal(str(value))`, i.e. the exact decimal
   value of its repr; everything else passes through unchanged.
(Values coming from `DataFrame.to_dict` carry numpy scalar types; `np.bool_`
is neither `int` nor `np.integer` nor `float`, so booleans pass through.) -/
def dynamoClean1 (key : String) (v : PyVal) : PyVal :=
  if key = "Customer_Id" then .vStr (pyStr v)
  else if pdIsna v then
    (if key ∈ numericCols then .vDec 0 else .vStr "N/A")
  else if isInfFloat v then .vDec 0
  else
    match v with
    | .vInt n => .vInt n
    | .vFloat (.finite q) => .vDec q
    | w => w

/-- `dynamo_benchmark.clean_record` (lines 23-65): builds `new_record` by
applying the per-field rule to every `(key, value)` pair of the input. -/
def cleanRecordDynamo (r : RawRecord) : RawRecord :=
  r.map (fun kv => (kv.1, dynamoClean1 kv.1 kv.2))

/-- Per-field body of `cassandra_benchmark.clean_record` (lines 27-48):
`Customer_Id` forced to string; nulls/NaN and infinite-or-NaN floats become
`None`; `int` stays integer; a finite float stays a float (`float(value)`);
everything else passes through. -/
def cassandraClean1 (key : String) (v : PyVal) : PyVal :=
  if key = "Customer_Id" then .vStr (pyStr v)
  else if pdIsna v then .vNone
  else if isInfOrNanFloat v then .vNone
  else
    match v with
    | .vInt n => .vInt n
    | .vFloat (.finite q) => .vFloat (.finite q)
    | w => w

/-- `cassandra_benchmark.clean_record` (lines 22-50). -/
def cleanRecordCassandra (r : RawRecord) : RawRecord :=
  r.map (fun kv => (kv.1, cassandraClean1 kv.1 kv.2))

/-- Error values a Python call in the modelled fragments can raise, plus the
`ValidationError` the specification's normalizer taxonomy postulates (no such
error exists in the source). `valueError` is what `min()`/`max()` raise on an
empty sequence. -/
inductive PyError where
  | valueError
  | validationError
  | emptySampleSetError
deriving DecidableEq, Repr

/-- `dynamo_benchmark.clean_record` seen as a fallible computation: its body
contains no `raise` and every operation it performs (`pd.isna`, `isinstance`,
`str`, `Decimal` of a float's repr, dict insertion) is total on the scalar
values of this data set, so it always returns `ok`. -/
def cleanRecordDynamoE (r : RawRecord) : Except PyError RawRecord :=
  Except.ok (cleanRecordDynamo r)

/-- `cassandra_benchmark.clean_record` seen as a fallible computation: no
`raise`, no failing operation, hence always `ok`. -/
def cleanRecordCassandraE (r : RawRecord) : Except PyError RawRecord :=
  Except.ok (cleanRecordCassandra r)

/-- Per-field effect of the `fillna` lines of `mongo_benchmark.prepare_data`
(lines 21-23): NaN is replaced by zero in exactly the columns `Aging`,
`Sales`, `Quantity` (a float64 column filled with `0`/`0.0` holds the float
`0.0`); every other field — including NaN in any other column, any Infinity,
and a numeric `Customer_Id` — is left unchanged. -/
def mongoFill1 (key : String) (v : PyVal) : PyVal :=
  if (key = "Aging" ∨ key = "Sales" ∨ key = "Quantity") ∧ pdIsna v = true then
    .vFloat (.finite 0)
  else v

/-- The `Transaction_Date` column of `mongo_benchmark.prepare_data` (line 24):
`pd.to_datetime(df['Order_Date'] + ' ' + df['Time'])`. When both operands are
strings the parsed timestamp carries their concatenation; a missing operand
propagates (string + NaN is NaN, and `to_datetime` of NaN is `NaT`). -/
def mongoTransactionDate (r : RawRecord) : PyVal :=
  match List.lookup "Order_Date" r, List.lookup "Time" r with
  | some (.vStr d), some (.vStr t) => .vTimestamp (d ++ " " ++ t)
  | _, _ => .vNaT

/-- Row-level view of `mongo_benchmark.prepare_data` (lines 18-25): the three
`fillna` substitutions applied to each field, then the merged
`Transaction_Date` column appended (the CSV has no such column, so the
DataFrame assignment adds it); there is no `Customer_Id` coercion and no other
null/Infinity handling. -/
def mongoPrepare (r : RawRecord) : RawRecord :=
  (r.map (fun kv => (kv.1, mongoFill1 kv.1 kv.2))) ++
    [("Transaction_Date", mongoTransactionDate r)]

/-- Python `min(l)` for nonempty `l`, `ValueError` on the empty list. -/
def pyMin : List ℚ → Except PyError ℚ
  | [] => .error .valueError
  | x :: xs => .ok (xs.foldl min x)

/-- Python `max(l)` for nonempty `l`, `ValueError` on the empty list. -/
def pyMax : List ℚ → Except PyError ℚ
  | [] => .error .valueError
  | x :: xs => .ok (xs.foldl max x)

/-- The four global aggregate figures of "TABLE 5". -/
structure AggStats where
  minMs : ℚ
  maxMs : ℚ
  avgMs : ℚ
  totalMs : ℚ
deriving DecidableEq, Repr

/-- "TABLE 5" of `mongo_benchmark.run_benchmark` (lines 166-177): computes
`min(latencies)`, `max(latencies)`, `sum(latencies)/len(latencies)`,
`sum(latencies)` with no emptiness guard — on an empty list the `min` call
raises `ValueError` (the mean's division by zero is never even reached). -/
def mongoAggregate (latencies : List ℚ) : Except PyError AggStats := do
  let mn ← pyMin latencies
  let mx ← pyMax latencies
  pure ⟨mn, mx, latencies.sum / (latencies.length : ℚ), latencies.sum⟩

/-- "TABLE 5" of the dynamo and cassandra scripts (`if latencies:` guard,
dynamo lines 230-235, cassandra lines 222-227): the aggregate table is
printed only when the list is nonempty, and is silently skipped — no error of
any kind — when it is empty. -/
def guardedAggregate (latencies : List ℚ) : Option AggStats :=
  if latencies.isEmpty then none
  else
    some ⟨(pyMin latencies).toOption.getD 0, (pyMax latencies).toOption.getD 0,
          latencies.sum / (latencies.length : ℚ), latencies.sum⟩

/-- The benchmark's operation categories (fixed enumeration). -/
inductive OpCategory where
  | insertSingle
  | insertBatch
  | insertBulk
  | readSpecific
  | readAll
  | updateSpecific
  | updateMany
  | deleteSpecific
  | deleteMany
deriving DecidableEq, Repr

/-- A "specific"/single-record category, as opposed to many/all/bulk. -/
def OpCategory.isSpecific : OpCategory → Bool
  | .insertSingle => true
  | .readSpecific => true
  | .updateSpecific => true
  | .deleteSpecific => true
  | _ => false

/-- One timed operation: its category and its measured duration (ms). -/
structure LatencySample where
  category : OpCategory
  durationMs : ℚ
deriving DecidableEq, Repr

/-- The wall-clock durations one benchmark run measures, as opaque inputs:
one duration per individually timed call (the per-record single-insert loop,
the ten specific reads, the ten specific updates, the one specific delete)
and one aggregate duration per batch/bulk/all/many phase. All three scripts
share this shape. -/
structure RunDurations where
  insertSingleOps : List ℚ
  insertBatchTotal : ℚ
  insertBulkTotal : ℚ
  readSpecificOps : List ℚ
  readAllTotal : ℚ
  updateSpecificOps : List ℚ
  updateManyTotal : ℚ
  deleteSpecificOp : ℚ
  deleteManyTotal : ℚ
deriving DecidableEq, Repr

/-- The `latencies` list each script accumulates for "TABLE 5": per-operation
times appended in the single-insert loop, then `extend`ed with the ten
specific-read times, the ten specific-update times, and the single
specific-delete time. Batch/bulk insert totals, read-all, update-many and
delete-many totals are never appended (mongo lines 53-171, dynamo lines
116-222, cassandra lines 103-214). -/
def runLatencies (d : RunDurations) : List ℚ :=
  d.insertSingleOps ++ d.readSpecificOps ++ d.updateSpecificOps ++
    [d.deleteSpecificOp]

/-- The same accumulated list with each duration tagged by the operation
category of the loop that recorded it. -/
def harnessSamples (d : RunDurations) : List LatencySample :=
  (d.insertSingleOps.map (fun t => ⟨.insertSingle, t⟩)) ++
    (d.readSpecificOps.map (fun t => ⟨.readSpecific, t⟩)) ++
    (d.updateSpecificOps.map (fun t => ⟨.updateSpecific, t⟩)) ++
    [⟨.deleteSpecific, d.deleteSpecificOp⟩]

/-- Python slice `l[a:b]` for `0 ≤ a ≤ b`: drop `a`, then take `b - a`;
truncates silently when the list is shorter. -/
def pySlice (l : List α) (a b : ℕ) : List α := (l.drop a).take (b - a)

/-- Python `range(0, stop, step)` for positive `step`: the multiples of
`step` below `stop`, i.e. `⌈stop/step⌉` of them. -/
def pyRangeStep (stop step : ℕ) : List ℕ :=
  (List.range ((stop + step - 1) / step)).map (fun j => j * step)

/-- The chunking both scripts use — mongo line 63
`[data[i:i + size] for i in range(0, len(data), size)]` and the equivalent
cassandra loop (lines 125-128): one slice `l[i:i+n]` per start index produced
by `range(0, len(l), n)`. -/
def pyChunks (l : List α) (n : ℕ) : List (List α) :=
  (pyRangeStep l.length n).map (fun i => pySlice l i (i + n))

/-- Predicate: the value is an IEEE NaN or Infinity. -/
def nonFinite : PyVal → Bool
  | .vFloat .nan => true
  | .vFloat (.inf _) => true
  | _ => false

/-- Predicate: the value is a Python string. -/
def isStrVal : PyVal → Bool
  | .vStr _ => true
  | _ => false

/-! Helper lemmas about the embedded operations. -/

/-- The per-field dynamo cleaning rule never outputs a NaN or Infinity: the
null/NaN check precedes the numeric branches and the Infinity check precedes
the float branch, so every float that reaches `Decimal(str(value))` is
finite. -/
theorem dynamoClean1_not_nonFinite (k : String) (v : PyVal) :
    nonFinite (dynamoClean1 k v) = false := by
  unfold dynamoClean1
  by_cases h1 : k = "Customer_Id"
  · simp [h1, nonFinite]
  · by_cases h2 : pdIsna v = true
    · by_cases h3 : k ∈ numericCols <;> simp [h1, h2, h3, nonFinite]
    · by_cases h4 : isInfFloat v = true
      · simp [h1, h2, h4, nonFinite]
      · rw [if_neg h1, if_neg h2, if_neg h4]
        rcases v with _ | n | f | s | b | d | ts | _
        · simp [pdIsna] at h2
        · rfl
        · rcases f with q | _ | ng
          · rfl
          · simp [pdIsna] at h2
          · simp [isInfFloat] at h4
        · rfl
        · rfl
        · rfl
        · rfl
        · simp [pdIsna] at h2

/-- The per-field cassandra cleaning rule never outputs a NaN or Infinity. -/
theorem cassandraClean1_not_nonFinite (k : String) (v : PyVal) :
    nonFinite (cassandraClean1 k v) = false := by
  unfold cassandraClean1
  by_cases h1 : k = "Customer_Id"
  · simp [h1, nonFinite]
  · by_cases h2 : pdIsna v = true
    · simp [h1, h2, nonFinite]
    · by_cases h4 : isInfOrNanFloat v = true
      · simp [h1, h2, h4, nonFinite]
      · rw [if_neg h1, if_neg h2, if_neg h4]
        rcases v with _ | n | f | s | b | d | ts | _
        · simp [pdIsna] at h2
        · rfl
        · rcases f with q | _ | ng
          · rfl
          · simp [pdIsna] at h2
          · simp [isInfOrNanFloat] at h4
        · rfl
        · rfl
        · rfl
        · rfl
        · simp [pdIsna] at h2

/-- Dynamo cleaning preserves the column keys in order. -/
theorem cleanRecordDynamo_keys (r : RawRecord) :
    (cleanRecordDynamo r).map Prod.fst = r.map Prod.fst := by
  simp [cleanRecordDynamo]

/-- Cassandra cleaning preserves the column keys in order. -/
theorem cleanRecordCassandra_keys (r : RawRecord) :
    (cleanRecordCassandra r).map Prod.fst = r.map Prod.fst := by
  simp [cleanRecordCassandra]

/-- Arithmetic helper: `(n - 1) / n = 0` in natural numbers. -/
theorem pred_div_self (n : ℕ) : (n - 1) / n = 0 := by
  rcases Nat.eq_zero_or_pos n with h | h
  · simp [h]
  · exact Nat.div_eq_of_lt (by omega)

/-- Chunking an empty list yields no chunks. -/
theorem pyChunks_nil (n : ℕ) : pyChunks ([] : List α) n = [] := by
  simp [pyChunks, pyRangeStep, pred_div_self]

/-- Unfolding step of the chunking: a nonempty list splits into its first `n`
elements followed by the chunks of the rest. -/
theorem pyChunks_cons (n : ℕ) (hn : 0 < n) (l : List α) (hl : l ≠ []) :
    pyChunks l n = l.take n :: pyChunks (l.drop n) n := by
  have hL : 0 < l.length := List.length_pos.mpr hl
  have hcount : (l.length + n - 1) / n = ((l.drop n).length + n - 1) / n + 1 := by
    rw [List.length_drop]
    rcases le_or_lt l.length n with h | h
    · have e1 : l.length + n - 1 = (l.length - 1) + n := by omega
      have e2 : l.length - n + n - 1 = n - 1 := by omega
      rw [e1, Nat.add_div_right _ hn, e2, pred_div_self,
        Nat.div_eq_of_lt (by omega)]
    · have e1 : l.length + n - 1 = (l.length - 1) + n := by omega
      have e2 : l.length - n + n - 1 = l.length - 1 := by omega
      rw [e1, e2, Nat.add_div_right _ hn]
  have hfun : ∀ j : ℕ,
      pySlice l (Nat.succ j * n) (Nat.succ j * n + n) =
        pySlice (l.drop n) (j * n) (j * n + n) := by
    intro j
    simp only [pySlice, List.drop_drop, Nat.succ_mul, Nat.add_sub_cancel_left]
    rw [Nat.add_comm (j * n) n]
  unfold pyChunks pyRangeStep
  rw [List.length_drop] at hcount ⊢
  rw [hcount, List.range_succ_eq_map]
  simp only [List.map_cons, List.map_map, Function.comp]
  congr 1
  · simp [pySlice]
  · exact List.map_congr_left (fun j _ => hfun j)

/-- Fuel-indexed concatenation lemma for the chunks. -/
theorem pyChunks_flatten_aux (n : ℕ) (hn : 0 < n) :
    ∀ (fuel : ℕ) (l : List α), l.length ≤ fuel → (pyChunks l n).flatten = l := by
  intro fuel
  induction fuel with
  | zero =>
      intro l h
      have hnil : l = [] := List.length_eq_zero.mp (Nat.le_zero.mp h)
      subst hnil
      rw [pyChunks_nil]
      rfl
  | succ f ih =>
      intro l h
      rcases eq_or_ne l [] with rfl | hne
      · rw [pyChunks_nil]; rfl
      · rw [pyChunks_cons n hn l hne, List.flatten_cons,
          ih (l.drop n) (by
            have := List.length_pos.mpr hne
            rw [List.length_drop]; omega)]
        exact List.take_append_drop n l

/-- Concatenating the chunks restores the original list. -/
theorem pyChunks_flatten (n : ℕ) (hn : 0 < n) (l : List α) :
    (pyChunks l n).flatten = l :=
  pyChunks_flatten_aux n hn l.length l le_rfl

/-- Every chunk has at most `n` elements. -/
theorem pyChunks_length_le (n : ℕ) (l : List α) :
    ∀ c ∈ pyChunks l n, c.length ≤ n := by
  intro c hc
  simp only [pyChunks, List.mem_map] at hc
  obtain ⟨i, hi, rfl⟩ := hc
  simp only [pySlice, Nat.add_sub_cancel_left]
  exact List.length_take_le n _

/-- The chunk lengths sum to the input length. -/
theorem pyChunks_sum_length (n : ℕ) (hn : 0 < n) (l : List α) :
    ((pyChunks l n).map List.length).sum = l.length := by
  rw [← List.length_flatten, pyChunks_flatten n hn]

/-- A take followed by the adjacent slice is the longer take. -/
theorem take_append_pySlice (l : List α) (a b : ℕ) (h : a ≤ b) :
    l.take a ++ pySlice l a b = l.take b := by
  have e : a + (b - a) = b := by omega
  rw [pySlice, ← List.take_add, e]

/-! Claim theorems. -/

/-- C1 (counterexample): the claim covers all three normalization steps, but
`mongo_benchmark.prepare_data` only fills NaN in `Aging`, `Sales` and
`Quantity`, so a NaN in any other column — here `Discount` — survives into
the normalized output. -/
theorem mongo_nan_survives :
    ("Discount", PyVal.vFloat .nan) ∈
      mongoPrepare [("Customer_Id", PyVal.vInt 1),
        ("Order_Date", PyVal.vStr "1/1/2020"), ("Time", PyVal.vStr "10:00"),
        ("Discount", PyVal.vFloat .nan)] ∧
    nonFinite (PyVal.vFloat .nan) = true := by decide

/-- C1 (amended): the dynamo and cassandra `clean_record` functions never
produce a NaN or Infinity in any field of the normalized record. -/
theorem clean_no_nonfinite (r : RawRecord) :
    (∀ kv ∈ cleanRecordDynamo r, nonFinite kv.2 = false) ∧
    (∀ kv ∈ cleanRecordCassandra r, nonFinite kv.2 = false) := by
  constructor
  · intro kv hkv
    simp only [cleanRecordDynamo, List.mem_map] at hkv
    obtain ⟨ab, hab, rfl⟩ := hkv
    exact dynamoClean1_not_nonFinite ab.1 ab.2
  · intro kv hkv
    simp only [cleanRecordCassandra, List.mem_map] at hkv
    obtain ⟨ab, hab, rfl⟩ := hkv
    exact cassandraClean1_not_nonFinite ab.1 ab.2

/-- C1 (witness): the amended theorem applied to a concrete record whose
`Sales` field is NaN; the cleaned field `Decimal('0')` is finite. -/
theorem clean_no_nonfinite_witness :
    nonFinite (PyVal.vDec 0) = false :=
  (clean_no_nonfinite [("Sales", PyVal.vFloat .nan)]).1
    ("Sales", PyVal.vDec 0) (by decide)

/-- C2 (counterexample): `mongo_benchmark.prepare_data` does not touch
`Customer_Id`, so the raw integer `37077` stays an integer — not the string
`"37077"` the claim requires (the mongo script itself then reads with the
integer key `37077`). -/
theorem mongo_id_not_string :
    List.lookup "Customer_Id"
        (mongoPrepare [("Customer_Id", PyVal.vInt 37077),
          ("Order_Date", PyVal.vStr "1/1/2020"), ("Time", PyVal.vStr "10:00")]) =
      some (PyVal.vInt 37077) ∧
    isStrVal (PyVal.vInt 37077) = false := by decide

/-- C2 (amended): the dynamo and cassandra `clean_record` functions always
render the `Customer_Id` field as a string, and the raw integer `37077`
normalizes to the string `"37077"` in both. -/
theorem clean_id_string :
    (∀ (r : RawRecord) (kv : String × PyVal), kv ∈ cleanRecordDynamo r →
      kv.1 = "Customer_Id" → isStrVal kv.2 = true) ∧
    (∀ (r : RawRecord) (kv : String × PyVal), kv ∈ cleanRecordCassandra r →
      kv.1 = "Customer_Id" → isStrVal kv.2 = true) ∧
    cleanRecordDynamo [("Customer_Id", PyVal.vInt 37077)] =
      [("Customer_Id", PyVal.vStr "37077")] ∧
    cleanRecordCassandra [("Customer_Id", PyVal.vInt 37077)] =
      [("Customer_Id", PyVal.vStr "37077")] := by
  refine ⟨?_, ?_, by decide, by decide⟩
  · intro r kv hkv hk
    simp only [cleanRecordDynamo, List.mem_map] at hkv
    obtain ⟨ab, hab, rfl⟩ := hkv
    simp only at hk
    simp [dynamoClean1, hk, isStrVal]
  · intro r kv hkv hk
    simp only [cleanRecordCassandra, List.mem_map] at hkv
    obtain ⟨ab, hab, rfl⟩ := hkv
    simp only at hk
    simp [cassandraClean1, hk, isStrVal]

/-- C2 (witness): the amended theorem applied to the record with the raw
integer identity `37077`. -/
theorem clean_id_string_witness :
    isStrVal (PyVal.vStr "37077") = true :=
  clean_id_string.1 [("Customer_Id", PyVal.vInt 37077)]
    ("Customer_Id", PyVal.vStr "37077") (by decide) rfl

/-- C3: every finite float in a non-identity column is converted by
`Decimal(str(value))`, i.e. to the exact decimal value of its shortest
decimal representation, never through a binary floating-point intermediate;
in particular `19.99` normalizes to exactly the decimal `19.99`. -/
theorem dynamo_exact_decimal :
    (∀ (k : String) (q : ℚ), k ≠ "Customer_Id" →
      dynamoClean1 k (PyVal.vFloat (.finite q)) = PyVal.vDec q) ∧
    dynamoClean1 "Sales" (PyVal.vFloat (.finite (1999 / 100))) =
      PyVal.vDec (1999 / 100) := by
  have hgen : ∀ (k : String) (q : ℚ), k ≠ "Customer_Id" →
      dynamoClean1 k (PyVal.vFloat (.finite q)) = PyVal.vDec q := by
    intro k q hk
    simp [dynamoClean1, pdIsna, isInfFloat, hk]
  exact ⟨hgen, hgen "Sales" (1999 / 100) (by decide)⟩

/-- C3 (witness): the general statement instantiated at the `Profit` column
and the decimal value `19.99`. -/
theorem dynamo_exact_decimal_witness :
    dynamoClean1 "Profit" (PyVal.vFloat (.finite (1999 / 100))) =
      PyVal.vDec (1999 / 100) :=
  dynamo_exact_decimal.1 "Profit" (1999 / 100) (by decide)

/-- C4: what the source actually does on an empty latency-sample sequence —
the mongo script computes `min(latencies)` unguarded, which raises
`ValueError` (not the specified `EmptySampleSetError`), while the dynamo and
cassandra scripts silently skip the whole aggregate table behind an
`if latencies:` guard, raising nothing. -/
theorem empty_aggregate_behavior :
    mongoAggregate [] = Except.error PyError.valueError ∧
    guardedAggregate [] = none := by
  constructor <;> rfl

/-- C5: every sample accumulated into the global-aggregate list has a
specific/single-record category, the aggregate consumes exactly the durations
of those samples, and the list is independent of the batch/bulk/all/many
phase durations. -/
theorem aggregate_specific_only (d e : RunDurations)
    (h1 : d.insertSingleOps = e.insertSingleOps)
    (h2 : d.readSpecificOps = e.readSpecificOps)
    (h3 : d.updateSpecificOps = e.updateSpecificOps)
    (h4 : d.deleteSpecificOp = e.deleteSpecificOp) :
    (∀ s ∈ harnessSamples d, s.category.isSpecific = true) ∧
    runLatencies d = (harnessSamples d).map (fun s => s.durationMs) ∧
    runLatencies d = runLatencies e := by
  refine ⟨?_, ?_, ?_⟩
  · intro s hs
    simp only [harnessSamples, List.mem_append, List.mem_map,
      List.mem_singleton] at hs
    rcases hs with ((⟨t, ht, rfl⟩ | ⟨t, ht, rfl⟩) | ⟨t, ht, rfl⟩) | rfl <;> rfl
  · simp [runLatencies, harnessSamples, Function.comp_def]
  · simp [runLatencies, h1, h2, h3, h4]

/-- C5 (witness): two concrete runs that differ only in every batch/bulk
duration produce the identical aggregate-input list. -/
theorem aggregate_specific_only_witness :
    runLatencies ⟨[5, 7], 0, 0, [3], 0, [4], 0, 2, 0⟩ =
      runLatencies ⟨[5, 7], 999, 999, [3], 999, [4], 999, 2, 999⟩ :=
  (aggregate_specific_only ⟨[5, 7], 0, 0, [3], 0, [4], 0, 2, 0⟩
    ⟨[5, 7], 999, 999, [3], 999, [4], 999, 2, 999⟩ rfl rfl rfl rfl).2.2

/-- C6 (counterexample): in the cassandra script a NaN in the numeric column
`Sales` is replaced by `None`, not by any zero-equivalent, contradicting the
claim that numeric columns receive a zero-equivalent in the target's
exact-numeric type. -/
theorem cassandra_numeric_null_not_zero :
    cleanRecordCassandra [("Sales", PyVal.vFloat .nan)] =
      [("Sales", PyVal.vNone)] ∧
    PyVal.vNone ≠ PyVal.vDec 0 ∧ PyVal.vNone ≠ PyVal.vInt 0 ∧
    PyVal.vNone ≠ PyVal.vFloat (.finite 0) := by
  refine ⟨by decide, by decide, by decide, by decide⟩

/-- C6 (amended): the substitution rule is hardcoded per script — dynamo
replaces null/NaN with `Decimal('0')` in its `numeric_cols` list and with the
sentinel `"N/A"` elsewhere, and replaces any infinite float with
`Decimal('0')`; cassandra replaces every null/NaN/Infinity with explicit
null, numeric columns included. -/
theorem substitution_per_script (k : String) (v : PyVal)
    (hk : k ≠ "Customer_Id") :
    (pdIsna v = true →
      dynamoClean1 k v =
        (if k ∈ numericCols then PyVal.vDec 0 else PyVal.vStr "N/A") ∧
      cassandraClean1 k v = PyVal.vNone) ∧
    (isInfFloat v = true →
      dynamoClean1 k v = PyVal.vDec 0 ∧ cassandraClean1 k v = PyVal.vNone) := by
  constructor
  · intro hna
    constructor
    · simp [dynamoClean1, hk, hna]
    · simp [cassandraClean1, hk, hna]
  · intro hinf
    have hna : pdIsna v = false := by
      rcases v with _ | n | f | s | b | d | ts | _
      case vFloat =>
        rcases f with q | _ | ng <;> simp_all [isInfFloat, pdIsna]
      all_goals simp_all [isInfFloat, pdIsna]
    have hion : isInfOrNanFloat v = true := by
      rcases v with _ | n | f | s | b | d | ts | _
      case vFloat =>
        rcases f with q | _ | ng <;> simp_all [isInfFloat, isInfOrNanFloat]
      all_goals simp_all [isInfFloat, isInfOrNanFloat]
    constructor
    · simp [dynamoClean1, hk, hna, hinf]
    · simp [cassandraClean1, hk, hna, hion]

/-- C6 (witness): the amended theorem applied to a NaN in the `Sales`
column. -/
theorem substitution_per_script_witness :
    dynamoClean1 "Sales" (PyVal.vFloat .nan) =
        (if "Sales" ∈ numericCols then PyVal.vDec 0 else PyVal.vStr "N/A") ∧
      cassandraClean1 "Sales" (PyVal.vFloat .nan) = PyVal.vNone :=
  (substitution_per_script "Sales" (PyVal.vFloat .nan) (by decide)).1 rfl

/-- C7: for every record sequence and positive chunk size `n`, chunking
yields only slices of length at most `n`, the slice lengths sum to the input
length, and an empty input yields zero slices. -/
theorem chunk_bounds_sum_empty (l : List RawRecord) (n : ℕ) (hn : 0 < n) :
    (∀ c ∈ pyChunks l n, c.length ≤ n) ∧
    ((pyChunks l n).map List.length).sum = l.length ∧
    pyChunks ([] : List RawRecord) n = [] :=
  ⟨pyChunks_length_le n l, pyChunks_sum_length n hn l, pyChunks_nil n⟩

/-- C7 (witness): the theorem applied to a concrete three-record sequence
with chunk size two. -/
theorem chunk_bounds_sum_empty_witness :
    ((pyChunks [[("A", PyVal.vInt 1)], [("A", PyVal.vInt 2)],
        [("A", PyVal.vInt 3)]] 2).map List.length).sum = 3 :=
  (chunk_bounds_sum_empty
    [[("A", PyVal.vInt 1)], [("A", PyVal.vInt 2)], [("A", PyVal.vInt 3)]] 2
    (by decide)).2.1.trans (by decide)

/-- C8: partitioning into single/batch/bulk slices is a contiguous range
split — concatenating the `[0:a]`, `[a:b]` and `[b:c]` slices reproduces the
`c`-prefix of the sequence (truncated when shorter, no error, no wrap), every
slice is truncated to its requested bound, and the mongo variant whose bulk
slice is unbounded reproduces the whole sequence. -/
theorem partition_range_split (l : List RawRecord) (a b c : ℕ)
    (hab : a ≤ b) (hbc : b ≤ c) :
    (pySlice l 0 a ++ (pySlice l a b ++ pySlice l b c) = l.take c ∧
      (pySlice l a b).length ≤ b - a) ∧
    l.take 10 ++ (pySlice l 10 1010 ++ l.drop 1010) = l := by
  refine ⟨⟨?_, ?_⟩, ?_⟩
  · have h0 : pySlice l 0 a = l.take a := by simp [pySlice]
    rw [h0, ← List.append_assoc, take_append_pySlice l a b hab,
      take_append_pySlice l b c hbc]
  · rw [pySlice]
    exact List.length_take_le _ _
  · rw [← List.append_assoc,
      take_append_pySlice l 10 1010 (by omega), List.take_append_drop]

/-- C8 (witness): the theorem applied to a concrete four-record sequence with
bounds `1 ≤ 2 ≤ 3`. -/
theorem partition_range_split_witness :
    pySlice ([[("A", PyVal.vInt 1)], [("A", PyVal.vInt 2)],
        [("A", PyVal.vInt 3)], [("A", PyVal.vInt 4)]] : List RawRecord) 0 1 ++
      (pySlice ([[("A", PyVal.vInt 1)], [("A", PyVal.vInt 2)],
          [("A", PyVal.vInt 3)], [("A", PyVal.vInt 4)]] : List RawRecord) 1 2 ++
        pySlice ([[("A", PyVal.vInt 1)], [("A", PyVal.vInt 2)],
          [("A", PyVal.vInt 3)], [("A", PyVal.vInt 4)]] : List RawRecord) 2 3) =
      ([[("A", PyVal.vInt 1)], [("A", PyVal.vInt 2)],
        [("A", PyVal.vInt 3)], [("A", PyVal.vInt 4)]] : List RawRecord).take 3 :=
  (partition_range_split
    [[("A", PyVal.vInt 1)], [("A", PyVal.vInt 2)],
      [("A", PyVal.vInt 3)], [("A", PyVal.vInt 4)]] 1 2 3
    (by omega) (by omega)).1.1

/-- C9 (counterexample): a record missing the `Customer_Id` column is
normalized without any error by both `clean_record` functions — no
`ValidationError` is raised (none exists in the source). -/
theorem missing_id_no_error :
    cleanRecordDynamoE [("Sales", PyVal.vInt 5)] =
      Except.ok [("Sales", PyVal.vInt 5)] ∧
    cleanRecordCassandraE [("Sales", PyVal.vInt 5)] =
      Except.ok [("Sales", PyVal.vInt 5)] ∧
    "Customer_Id" ∉ ([("Sales", PyVal.vInt 5)] : RawRecord).map Prod.fst := by
  refine ⟨congrArg Except.ok (by decide), congrArg Except.ok (by decide),
    by decide⟩

/-- C9 (amended): normalization is total and never raises on any well-formed
input; when the identity column is absent the output simply lacks it. -/
theorem clean_total_never_raises (r : RawRecord) :
    (cleanRecordDynamoE r).isOk = true ∧
    (cleanRecordCassandraE r).isOk = true ∧
    ("Customer_Id" ∉ r.map Prod.fst →
      "Customer_Id" ∉ (cleanRecordDynamo r).map Prod.fst ∧
      "Customer_Id" ∉ (cleanRecordCassandra r).map Prod.fst) := by
  refine ⟨rfl, rfl, ?_⟩
  intro h
  rw [cleanRecordDynamo_keys, cleanRecordCassandra_keys]
  exact ⟨h, h⟩

/-- C9 (witness): the amended theorem applied to the concrete record without
an identity column. -/
theorem clean_total_never_raises_witness :
    "Customer_Id" ∉ (cleanRecordDynamo [("Sales", PyVal.vInt 5)]).map Prod.fst ∧
    "Customer_Id" ∉
      (cleanRecordCassandra [("Sales", PyVal.vInt 5)]).map Prod.fst :=
  (clean_total_never_raises [("Sales", PyVal.vInt 5)]).2.2 (by decide)

/-- C10: both `clean_record` functions preserve the exact ordered column-key
sequence of the input record — no column is added, dropped or renamed. -/
theorem clean_preserves_keys (r : RawRecord) :
    (cleanRecordDynamo r).map Prod.fst = r.map Prod.fst ∧
    (cleanRecordCassandra r).map Prod.fst = r.map Prod.fst :=
  ⟨cleanRecordDynamo_keys r, cleanRecordCassandra_keys r⟩

end CloudNoSQL
